import Mathlib

/-!
Verification development for the `pdocs` project-documentation CLI.

The definitions below are a shallow embedding of the TypeScript sources:
`src/utils.ts` (YAML loader, field accessors, directory scanner, docs-dir
discovery, CLAUDE.md installation), `src/commands/check.ts` (the validation
engine) and `src/commands/list.ts` (the query layer).  File-system state is
passed explicitly; `console.log` output is accumulated as a list of lines;
`process.exit` codes are returned as values.

Modelling conventions (stated once here, referenced by the definitions):
* A JavaScript value produced by `js-yaml` is modelled by `JVal`.  JS `null`
  and `undefined` are collapsed into `JVal.jNull` (every use site in the
  sources treats them identically: both are falsy, both fail
  `typeof v === 'string'`, and property access throws on both).
* Numbers are modelled as `Int` (the sources only compare them to 0 and
  print them; float-specific behaviour is never relied on by any claim).
* JS objects are association lists with distinct keys, which is what the
  YAML parser produces (later duplicate keys overwrite earlier ones).
* Exotic property lookups (e.g. `Object.keys` of a string, `'length'` of an
  array) are modelled only to the extent the sources can reach them.
* Paths are lists of components from the filesystem root; `path.join` of a
  directory and a file name appends one component.
-/

/-- JS value as produced by `yaml.load`; `jNull` stands for both `null` and
`undefined`. -/
inductive JVal where
  | jNull : JVal
  | jBool : Bool → JVal
  | jNum : Int → JVal
  | jStr : String → JVal
  | jArr : List JVal → JVal
  | jObj : List (String × JVal) → JVal

/-- Association-list lookup, modelling JS object property read on an object
literal (keys are distinct, so first match is the match). -/
def lookupField : List (String × JVal) → String → Option JVal
  | [], _ => none
  | (k, v) :: rest, key => if k == key then some v else lookupField rest key

/-- JS truthiness test, negated: `!v` for the `JVal`s the YAML parser can
produce (`NaN` is not representable here). -/
def jFalsy : JVal → Bool
  | .jNull => true
  | .jBool b => !b
  | .jNum n => n == 0
  | .jStr s => s == ""
  | .jArr _ => false
  | .jObj _ => false

/-- Raw JS property access `obj[key]` on a receiver already known to be
non-null: a missing key or a non-object receiver yields `undefined`
(collapsed into `jNull`). -/
def jGet : JVal → String → JVal
  | .jObj fields, key => (lookupField fields key).getD .jNull
  | _, _ => .jNull

/-- Number of keys `Object.keys(v).length` for the values reachable in
`check.ts` (`paths` of an API-contracts document). -/
def jKeysCount : JVal → Nat
  | .jObj fields => ((fields.map Prod.fst).eraseDups).length
  | .jArr xs => xs.length
  | .jStr s => s.length
  | _ => 0

/-- JS `parseInt(s, 10)`: skip leading whitespace, optional sign, then the
longest run of decimal digits; `none` models `NaN`. -/
def parseIntJS (s : String) : Option Int :=
  let cs := s.toList.dropWhile Char.isWhitespace
  let signAndRest : Int × List Char :=
    match cs with
    | '-' :: rest => (-1, rest)
    | '+' :: rest => (1, rest)
    | _ => (1, cs)
  let ds := signAndRest.2.takeWhile Char.isDigit
  if ds.isEmpty then none
  else some (signAndRest.1 * (Int.ofNat (ds.foldl (fun n c => n * 10 + (c.toNat - 48)) 0)))

/-- utils.ts `getString`: `obj[key]` (which throws a TypeError, modelled as
`.error ()`, when `obj` is null/undefined), returned when it is a string,
else `''`. -/
def getString : JVal → String → Except Unit String
  | .jNull, _ => .error ()
  | .jObj fields, key =>
      .ok (match lookupField fields key with
        | some (.jStr s) => s
        | _ => "")
  | _, _ => .ok ""

/-- utils.ts `getNumber`: a numeric value is returned as is; a string value
goes through `parseInt(value, 10)` with `NaN` replaced by 0; anything else
is 0.  Throws (`.error ()`) on a null/undefined receiver. -/
def getNumber : JVal → String → Except Unit Int
  | .jNull, _ => .error ()
  | .jObj fields, key =>
      .ok (match lookupField fields key with
        | some (.jNum n) => n
        | some (.jStr s) => (parseIntJS s).getD 0
        | _ => 0)
  | _, _ => .ok 0

/-- utils.ts `getArray`: the value when it is an array, else `[]`.  Throws
on a null/undefined receiver. -/
def getArray : JVal → String → Except Unit (List JVal)
  | .jNull, _ => .error ()
  | .jObj fields, key =>
      .ok (match lookupField fields key with
        | some (.jArr xs) => xs
        | _ => [])
  | _, _ => .ok []

/-- utils.ts `getNestedString`: reads `obj[parent]`, and when that value
passes `typeof === 'object' && !== null` (so: an object or an array), reads
its `child` property, returning it when it is a string, else `''`.  Throws
on a null/undefined receiver. -/
def getNestedString : JVal → String → String → Except Unit String
  | .jNull, _, _ => .error ()
  | .jObj fields, parent, child =>
      .ok (match lookupField fields parent with
        | some (.jObj pf) =>
            (match lookupField pf child with
              | some (.jStr s) => s
              | _ => "")
        | _ => "")
  | _, _, _ => .ok ""

/-- Value of `getString` at a receiver the call sites have already guarded
to be non-null (every engine call is preceded by an `if (!data)` check);
`getStr_agrees` certifies agreement with `getString` there. -/
def getStr (obj : JVal) (key : String) : String :=
  match jGet obj key with
  | .jStr s => s
  | _ => ""

/-- Guarded-receiver value of `getNumber`; see `getStr`. -/
def getNum (obj : JVal) (key : String) : Int :=
  match jGet obj key with
  | .jNum n => n
  | .jStr s => (parseIntJS s).getD 0
  | _ => 0

/-- Guarded-receiver value of `getArray`; see `getStr`. -/
def getArr (obj : JVal) (key : String) : List JVal :=
  match jGet obj key with
  | .jArr xs => xs
  | _ => []

/-- Guarded-receiver value of `getNestedString`; see `getStr`. -/
def getNested (obj : JVal) (parent child : String) : String :=
  match jGet obj parent with
  | .jObj pf =>
      (match lookupField pf child with
        | some (.jStr s) => s
        | _ => "")
  | _ => ""

theorem getStr_agrees (obj : JVal) (key : String) (h : obj ≠ .jNull) :
    getString obj key = .ok (getStr obj key) := by
  cases obj with
  | jNull => exact absurd rfl h
  | jObj fields =>
      cases hl : lookupField fields key with
      | none => simp [getString, getStr, jGet, hl]
      | some v => cases v <;> simp [getString, getStr, jGet, hl]
  | _ => rfl

theorem getNum_agrees (obj : JVal) (key : String) (h : obj ≠ .jNull) :
    getNumber obj key = .ok (getNum obj key) := by
  cases obj with
  | jNull => exact absurd rfl h
  | jObj fields =>
      cases hl : lookupField fields key with
      | none => simp [getNumber, getNum, jGet, hl]
      | some v => cases v <;> simp [getNumber, getNum, jGet, hl]
  | _ => rfl

theorem getArr_agrees (obj : JVal) (key : String) (h : obj ≠ .jNull) :
    getArray obj key = .ok (getArr obj key) := by
  cases obj with
  | jNull => exact absurd rfl h
  | jObj fields =>
      cases hl : lookupField fields key with
      | none => simp [getArray, getArr, jGet, hl]
      | some v => cases v <;> simp [getArray, getArr, jGet, hl]
  | _ => rfl

theorem getNested_agrees (obj : JVal) (parent child : String) (h : obj ≠ .jNull) :
    getNestedString obj parent child = .ok (getNested obj parent child) := by
  cases obj with
  | jNull => exact absurd rfl h
  | jObj fields =>
      cases hl : lookupField fields parent with
      | none => simp [getNestedString, getNested, jGet, hl]
      | some v => cases v <;> simp [getNestedString, getNested, jGet, hl]
  | _ => rfl

/-- A filesystem path, as the list of components from the root; the
filesystem root `'/'` is `[]`. -/
abbrev FsPath : Type := List String

/-- Outcome of reading and `yaml.load`-parsing one file: either the parse
threw (`fail`) or it produced a value. -/
inductive ParseOutcome where
  | fail : ParseOutcome
  | success : JVal → ParseOutcome

/-- Snapshot of the filesystem as the tool observes it: the set of existing
directories and the set of existing files together with what parsing each
one would yield. -/
structure FS where
  dirs : List FsPath
  files : List (FsPath × ParseOutcome)

/-- fs `existsSync`: the path names an existing directory or file. -/
def existsPath (fs : FS) (p : FsPath) : Bool :=
  decide (p ∈ fs.dirs) || decide (p ∈ fs.files.map Prod.fst)

/-- utils.ts `loadYaml`: read and parse the file; any I/O or parse error is
caught and turned into `null` (`jNull`).  A missing file is an I/O error. -/
def loadYaml (fs : FS) (p : FsPath) : JVal :=
  match fs.files.find? (fun q => decide (q.1 = p)) with
  | none => .jNull
  | some (_, .fail) => .jNull
  | some (_, .success v) => v

/-- JS `String.prototype.startsWith`, computed over the character list
(the byte-position loops of the core string primitives do not reduce in
the kernel, which concrete-evaluation proofs below rely on). -/
def strStartsWith (s pat : String) : Bool := s.toList.take pat.toList.length == pat.toList

/-- JS `String.prototype.endsWith`, computed over the character list. -/
def strEndsWith (s pat : String) : Bool :=
  s.toList.reverse.take pat.toList.length == pat.toList.reverse

/-- Drop the last `n` characters (node's `basename` extension strip). -/
def strDropRight (s : String) (n : Nat) : String :=
  String.mk (s.toList.take (s.toList.length - n))

/-- Drop the first `n` characters. -/
def strDrop (s : String) (n : Nat) : String := String.mk (s.toList.drop n)

/-- Last path component (`path.basename(file)`). -/
def pbasename (p : FsPath) : String := List.getLastD p ""

/-- node `path.basename(file, ext)`: the last component, with `ext`
stripped when it is a proper suffix of the name. -/
def basenameStrip (p : FsPath) (ext : String) : String :=
  let name := pbasename p
  if strEndsWith name ext && name != ext then strDropRight name ext.length else name

/-- Rendering of an absolute path, for log messages. -/
def pathToString (p : FsPath) : String := "/" ++ String.intercalate "/" p

/-- Lexicographic code-point order on strings, modelling the UTF-16
code-unit order JS `Array.prototype.sort` uses on the file names the
scanner produces (they agree on all code points below 0x10000, and file
ordering is never load-bearing for any claim). -/
def charListLe : List Char → List Char → Bool
  | [], _ => true
  | _ :: _, [] => false
  | a :: as, b :: bs =>
      if a.toNat < b.toNat then true
      else if b.toNat < a.toNat then false
      else charListLe as bs

/-- String comparison used by the scanner's `.sort()`. -/
def strLe (a b : String) : Bool := charListLe a.toList b.toList

/-- Insertion step of the scanner's sort. -/
def insertPath (x : FsPath) : List FsPath → List FsPath
  | [] => [x]
  | y :: ys => if strLe (pathToString x) (pathToString y) then x :: y :: ys else y :: insertPath x ys

/-- Stable insertion sort by full joined path, modelling `.sort()` on the
scanner's result. -/
def sortPaths : List FsPath → List FsPath
  | [] => []
  | x :: xs => insertPath x (sortPaths xs)

/-- File entries directly inside `dir` whose name ends in `.yaml` or
`.yml`. -/
def yamlEntriesIn (fs : FS) (dir : FsPath) : List FsPath :=
  (fs.files.map Prod.fst).filter
    (fun p => !p.isEmpty && decide (p.dropLast = dir) &&
      (strEndsWith (pbasename p) ".yaml" || strEndsWith (pbasename p) ".yml"))

/-- utils.ts `findYamlFiles`: missing directory gives `[]`; otherwise the
directory's `.yaml`/`.yml` file entries joined back onto `dir` and sorted
(`readdirSync` on a non-directory throws, which the `catch` also turns
into `[]`, hence the `dirs` membership test). -/
def findYamlFiles (fs : FS) (dir : FsPath) : List FsPath :=
  if decide (dir ∈ fs.dirs) then sortPaths (yamlEntriesIn fs dir) else []

/-- Recursion core of utils.ts `findDocsDir`, over the reversed current
directory so that "move to the parent" (`dirname`) is structural `tail`:
given the reversed components of the current directory, test for a `docs`
sub-directory and walk upward.  An empty list is the filesystem root, where
the `while (currentDir !== root)` loop does not run; the additional
`parentDir === currentDir` guard of the source can only fire at the root
and is therefore subsumed by the same base case. -/
def findAux (dirs : List FsPath) : List String → Option FsPath
  | [] => none
  | seg :: rest =>
      if (seg :: rest).reverse ++ ["docs"] ∈ dirs then some ((seg :: rest).reverse ++ ["docs"])
      else findAux dirs rest

/-- utils.ts `findDocsDir`: walk from `cwd` upward, returning the first
existing `docs` sub-directory, or `none` at the filesystem root.  Only the
directory set matters (`statSync(...).isDirectory()` must hold). -/
def findDocsDirFrom (dirs : List FsPath) (cwd : FsPath) : Option FsPath :=
  findAux dirs cwd.reverse

/-- Plain-content file store used by `ensureClaudeDoc` (contents as raw
strings; `writeFileSync` replaces or creates the file). -/
abbrev Store : Type := List (FsPath × String)

/-- Store lookup (`existsSync`/`readFileSync` over the content store). -/
def storeGet (st : Store) (p : FsPath) : Option String :=
  match List.find? (fun q => decide (q.1 = p)) st with
  | none => none
  | some (_, c) => some c

/-- Store update (`writeFileSync`). -/
def storeSet (st : Store) (p : FsPath) (c : String) : Store :=
  match st with
  | [] => [(p, c)]
  | (q, d) :: rest => if q = p then (p, c) :: rest else (q, d) :: storeSet rest p c

/-- utils.ts `ensureClaudeDoc`: if `docsDir/CLAUDE.md` exists, return at
once; otherwise copy the bundled `CLAUDE.template.md` (resolved from the
module location, passed here as `templatesDir`) into the docs directory,
or print only a warning when the template itself is missing.  Returns the
resulting store and the printed lines; read/write faults of the `try`
block are not modelled (the store is a total map). -/
def ensureClaudeDoc (st : Store) (docsDir templatesDir : FsPath) : Store × List String :=
  let claudePath := docsDir ++ ["CLAUDE.md"]
  if (storeGet st claudePath).isSome then (st, [])
  else
    let templatePath := templatesDir ++ ["CLAUDE.template.md"]
    match storeGet st templatePath with
    | none => (st, ["Warning: CLAUDE.template.md not found, skipping auto-install"])
    | some content =>
        (storeSet st claudePath content, ["✓ Installed CLAUDE.md in docs/ directory"])

/-- Containment scan for `strIncludes`: try every tail of the haystack. -/
def strIncludesAux (pat : List Char) : List Char → Bool
  | [] => pat.isEmpty
  | c :: rest => if (c :: rest).take pat.length == pat then true else strIncludesAux pat rest

/-- JS `String.prototype.includes(sub)` (the engine passes the literal
`'[type'`), computed over character lists. -/
def strIncludes (s sub : String) : Bool := strIncludesAux sub.toList s.toList

/-- check.ts `CheckResult`: the three counters of the validation engine. -/
structure CheckResult where
  totalChecks : Nat
  totalErrors : Nat
  totalWarnings : Nat
deriving DecidableEq, Repr

/-- check.ts module-level `result` initializer (lines 11–15); each CLI
invocation is a fresh process, so every run of `check` starts from this
value. -/
def initialResult : CheckResult := { totalChecks := 0, totalErrors := 0, totalWarnings := 0 }

/-- Engine state: the mutable counter aggregate plus everything printed so
far (one list entry per `console.log` call). -/
structure CheckState where
  result : CheckResult
  out : List String
deriving DecidableEq, Repr

/-- A bare `console.log(message)`. -/
def println (m : String) (s : CheckState) : CheckState := { s with out := s.out ++ [m] }

/-- check.ts `logCheck`: always counts, prints only when verbose. -/
def logCheck (m : String) (verbose : Bool) (s : CheckState) : CheckState :=
  { result := { s.result with totalChecks := s.result.totalChecks + 1 },
    out := s.out ++ (if verbose then ["[CHECK] " ++ m] else []) }

/-- check.ts `logPass`: prints only when verbose, no counter. -/
def logPass (m : String) (verbose : Bool) (s : CheckState) : CheckState :=
  { s with out := s.out ++ (if verbose then ["[PASS] " ++ m] else []) }

/-- check.ts `logWarn`: always counts and prints. -/
def logWarn (m : String) (s : CheckState) : CheckState :=
  { result := { s.result with totalWarnings := s.result.totalWarnings + 1 },
    out := s.out ++ ["[WARN] " ++ m] }

/-- check.ts `logError`: always counts and prints, plus an optional hint
line. -/
def logError (m : String) (hint : Option String) (s : CheckState) : CheckState :=
  { result := { s.result with totalErrors := s.result.totalErrors + 1 },
    out := s.out ++ ["[ERROR] " ++ m] ++
      (match hint with
        | some h => ["        💡 " ++ h]
        | none => []) }

/-- check.ts `logInfo`: prints only when verbose, no counter. -/
def logInfo (m : String) (verbose : Bool) (s : CheckState) : CheckState :=
  { s with out := s.out ++ (if verbose then ["[INFO] " ++ m] else []) }

/-- check.ts `checkFileExists`. -/
def checkFileExists (fs : FS) (file : FsPath) (label : String) (verbose : Bool)
    (templateType : Option String) (s : CheckState) : CheckState × Bool :=
  let s := logCheck ("Checking for " ++ label) verbose s
  if existsPath fs file then (logPass (label ++ " found") verbose s, true)
  else
    let hint := templateType.map (fun t => "Get template with: pdocs template " ++ t)
    (logError (label ++ " missing: " ++ pathToString file) hint s, false)

/-- check.ts `checkYamlField`: warn when the string field is falsy (missing,
non-string or `''`) or is the literal two-character string `'""'`. -/
def checkYamlField (fs : FS) (file : FsPath) (field label : String) (s : CheckState) :
    CheckState × Bool :=
  if !existsPath fs file then (s, false)
  else
    let data := loadYaml fs file
    if jFalsy data then (s, false)
    else
      let value := getStr data field
      if value == "" || value == "\"\"" then
        (logWarn (label ++ ": '" ++ field ++ "' is empty in " ++ pbasename file) s, false)
      else (s, true)

/-- check.ts `checkPrd`. -/
def checkPrd (fs : FS) (docsDir : FsPath) (verbose : Bool) (s : CheckState) : CheckState :=
  let prdFile := docsDir ++ ["product-requirements.yaml"]
  let s := println "\n━━━ Product Requirements Document ━━━" s
  let r1 := checkFileExists fs prdFile "Product Requirements Document" verbose
    (some "product-requirements") s
  if !r1.2 then r1.1
  else
    let s := (checkYamlField fs prdFile "project_name" "PRD" r1.1).1
    let s := (checkYamlField fs prdFile "summary" "PRD" s).1
    let s := (checkYamlField fs prdFile "goal" "PRD" s).1
    let data := loadYaml fs prdFile
    if jFalsy data then s
    else
      let features := getArr data "features"
      let s := logInfo ("Features defined in PRD: " ++ toString features.length) verbose s
      if features.length == 0 then logWarn "No features defined in PRD" s else s

/-- Loop body of check.ts `checkUserFlows` (`flowFiles.forEach`). -/
def flowStep (fs : FS) (verbose : Bool) (s : CheckState) (flowFile : FsPath) : CheckState :=
  let flowName := basenameStrip flowFile ".yaml"
  let s := logCheck ("Checking flow: " ++ flowName) verbose s
  let data := loadYaml fs flowFile
  if jFalsy data then s
  else if (getArr data "primary_flows").length == 0 then
    logWarn ("No flows defined in " ++ flowName) s
  else s

/-- check.ts `checkUserFlows`. -/
def checkUserFlows (fs : FS) (docsDir : FsPath) (verbose : Bool) (s : CheckState) : CheckState :=
  let flowsDir := docsDir ++ ["user-flows"]
  let s := println "\n━━━ User Flows ━━━" s
  if !existsPath fs flowsDir then
    logError ("User flows directory missing: " ++ pathToString flowsDir)
      (some "Get template with: pdocs template user-flow") s
  else
    let flowFiles := findYamlFiles fs flowsDir
    let s := logInfo ("User flow files found: " ++ toString flowFiles.length) verbose s
    if flowFiles.length == 0 then logWarn "No user flow files found" s
    else flowFiles.foldl (flowStep fs verbose) s

/-- Loop body of check.ts `checkUserStories` (`storyFiles.forEach`); the two
extra components carry the `completeCount`/`incompleteCount` tallies. -/
def userStoryStep (fs : FS) (st : CheckState × Nat × Nat) (storyFile : FsPath) :
    CheckState × Nat × Nat :=
  let data := loadYaml fs storyFile
  if jFalsy data then st
  else
    let storyId := getStr data "story_id"
    let status := getStr data "status"
    let counts : Nat × Nat :=
      if status == "complete" then (st.2.1 + 1, st.2.2) else (st.2.1, st.2.2 + 1)
    let asA := getNested data "user_story" "as_a"
    if asA == "" || asA == "\"\"" || strIncludes asA "[type" then
      (logWarn ("Story " ++ storyId ++ " has incomplete user story definition") st.1, counts)
    else (st.1, counts)

/-- check.ts `checkUserStories`. -/
def checkUserStories (fs : FS) (docsDir : FsPath) (verbose : Bool) (s : CheckState) : CheckState :=
  let storiesDir := docsDir ++ ["user-stories"]
  let s := println "\n━━━ User Stories ━━━" s
  if !existsPath fs storiesDir then
    logError ("User stories directory missing: " ++ pathToString storiesDir)
      (some "Get template with: pdocs template user-story") s
  else
    let storyFiles := findYamlFiles fs storiesDir
    let s := logInfo ("User story files found: " ++ toString storyFiles.length) verbose s
    if storyFiles.length == 0 then logWarn "No user story files found" s
    else
      let res := storyFiles.foldl (userStoryStep fs) (s, 0, 0)
      let s := logInfo ("Complete stories: " ++ toString res.2.1) verbose res.1
      logInfo ("Incomplete stories: " ++ toString res.2.2) verbose s

/-- Loop body of check.ts `checkFeatureSpecs` (`featureFiles.forEach`). -/
def featureStep (fs : FS) (st : CheckState × Nat × Nat) (featureFile : FsPath) :
    CheckState × Nat × Nat :=
  let data := loadYaml fs featureFile
  if jFalsy data then st
  else
    let featureId := getStr data "feature_id"
    let status := getStr data "status"
    let counts : Nat × Nat :=
      if status == "complete" then (st.2.1 + 1, st.2.2) else (st.2.1, st.2.2 + 1)
    ((checkYamlField fs featureFile "summary" ("Feature " ++ featureId) st.1).1, counts)

/-- check.ts `checkFeatureSpecs`. -/
def checkFeatureSpecs (fs : FS) (docsDir : FsPath) (verbose : Bool) (s : CheckState) : CheckState :=
  let featuresDir := docsDir ++ ["feature-specs"]
  let s := println "\n━━━ Feature Specifications ━━━" s
  if !existsPath fs featuresDir then
    logError ("Feature specs directory missing: " ++ pathToString featuresDir)
      (some "Get template with: pdocs template feature-spec") s
  else
    let featureFiles := findYamlFiles fs featuresDir
    let s := logInfo ("Feature spec files found: " ++ toString featureFiles.length) verbose s
    if featureFiles.length == 0 then logWarn "No feature spec files found" s
    else
      let res := featureFiles.foldl (featureStep fs) (s, 0, 0)
      let s := logInfo ("Complete features: " ++ toString res.2.1) verbose res.1
      logInfo ("Incomplete features: " ++ toString res.2.2) verbose s

/-- check.ts `checkSystemDesign`. -/
def checkSystemDesign (fs : FS) (docsDir : FsPath) (verbose : Bool) (s : CheckState) : CheckState :=
  let systemFile := docsDir ++ ["system-design.yaml"]
  let s := println "\n━━━ System Design ━━━" s
  let r1 := checkFileExists fs systemFile "System Design" verbose (some "system-design") s
  if !r1.2 then r1.1
  else
    let s := (checkYamlField fs systemFile "goal" "System Design" r1.1).1
    let data := loadYaml fs systemFile
    if jFalsy data then s
    else if getStr data "tech_stack" == "" then
      logWarn "No tech stack defined in system design" s
    else s

/-- check.ts `checkApiContracts`. -/
def checkApiContracts (fs : FS) (docsDir : FsPath) (verbose : Bool) (s : CheckState) : CheckState :=
  let apiFile := docsDir ++ ["api-contracts.yaml"]
  let s := println "\n━━━ API Contracts ━━━" s
  let r1 := checkFileExists fs apiFile "API Contracts" verbose (some "api-contracts") s
  if !r1.2 then r1.1
  else
    let data := loadYaml fs apiFile
    if jFalsy data then r1.1
    else
      let paths := jGet data "paths"
      let endpointCount := if jFalsy paths then 0 else jKeysCount paths
      let s := logInfo ("API endpoints defined: " ++ toString endpointCount) verbose r1.1
      if endpointCount == 0 then logWarn "No API endpoints defined" s else s

/-- check.ts `checkDataPlan`: the data-source count is informational only. -/
def checkDataPlan (fs : FS) (docsDir : FsPath) (verbose : Bool) (s : CheckState) : CheckState :=
  let dataFile := docsDir ++ ["data-plan.yaml"]
  let s := println "\n━━━ Data Plan ━━━" s
  let r1 := checkFileExists fs dataFile "Data Plan" verbose (some "data-plan") s
  if !r1.2 then r1.1
  else
    let data := loadYaml fs dataFile
    if jFalsy data then r1.1
    else
      let dataSources := getArr data "data_sources"
      if dataSources.length > 0 then
        logInfo ("Data sources defined: " ++ toString dataSources.length) verbose r1.1
      else r1.1

/-- check.ts `checkDesignSpec`. -/
def checkDesignSpec (fs : FS) (docsDir : FsPath) (verbose : Bool) (s : CheckState) : CheckState :=
  let designFile := docsDir ++ ["design-spec.yaml"]
  let s := println "\n━━━ Design Specification ━━━" s
  let r1 := checkFileExists fs designFile "Design Specification" verbose (some "design-spec") s
  if !r1.2 then r1.1
  else (checkYamlField fs designFile "design_goals" "Design Spec" r1.1).1

/-- Feature-identifier extraction of check.ts `checkCrossReferences`
(lines 304–313): objects (and arrays, which also pass the `typeof`
test) contribute their `id` string, everything else `''`; empty ids are
dropped. -/
def prdFeatureIds (prdData : JVal) : List String :=
  ((getArr prdData "features").map (fun f =>
    match f with
    | .jObj fields => getStr (.jObj fields) "id"
    | .jArr xs => getStr (.jArr xs) "id"
    | _ => "")).filter (fun id => id != "")

/-- Per-feature-identifier loop body of check.ts `checkCrossReferences`. -/
def crossRefFeatureStep (fs : FS) (featureFiles : List FsPath) (verbose : Bool)
    (s : CheckState) (featureId : String) : CheckState :=
  let s := logCheck ("Checking if " ++ featureId ++ " has specification") verbose s
  let hasSpec := featureFiles.any (fun file =>
    let data := loadYaml fs file
    if jFalsy data then false else getStr data "feature_id" == featureId)
  if !hasSpec then logWarn ("Feature " ++ featureId ++ " (in PRD) has no specification file") s
  else logPass ("Feature " ++ featureId ++ " has specification") verbose s

/-- Per-story loop body of check.ts `checkCrossReferences` (lines 346–357):
warn when the story's `feature_id` is non-empty, differs from the `F-##`
placeholder and is not among the PRD's feature identifiers. -/
def crossRefStoryStep (fs : FS) (featureIds : List String) (s : CheckState)
    (storyFile : FsPath) : CheckState :=
  let data := loadYaml fs storyFile
  if jFalsy data then s
  else
    let storyId := getStr data "story_id"
    let featureRef := getStr data "feature_id"
    if featureRef != "" && featureRef != "F-##" && !featureIds.contains featureRef then
      logWarn ("Story " ++ storyId ++ " references unknown feature: " ++ featureRef) s
    else s

/-- check.ts `checkCrossReferences`. -/
def checkCrossReferences (fs : FS) (docsDir : FsPath) (checkLinks verbose : Bool)
    (s : CheckState) : CheckState :=
  if !checkLinks then s
  else
    let s := println "\n━━━ Cross-Reference Validation ━━━" s
    let prdData := loadYaml fs (docsDir ++ ["product-requirements.yaml"])
    if jFalsy prdData then logWarn "No PRD file to cross-reference" s
    else
      let featureIds := prdFeatureIds prdData
      if featureIds.length == 0 then logWarn "No features in PRD to cross-reference" s
      else
        let featuresDir := docsDir ++ ["feature-specs"]
        let s :=
          if existsPath fs featuresDir then
            featureIds.foldl (crossRefFeatureStep fs (findYamlFiles fs featuresDir) verbose) s
          else s
        let storiesDir := docsDir ++ ["user-stories"]
        if existsPath fs storiesDir then
          (findYamlFiles fs storiesDir).foldl (crossRefStoryStep fs featureIds) s
        else s

/-- A row of `n` box-drawing characters (`'━'.repeat(n)`). -/
def hbar (n : Nat) : String := String.mk (List.replicate n '━')

/-- check.ts `generateSummary`: prints the tallies and returns the process
exit code — 0 when there are no errors (warnings alone do not fail the
run), 1 otherwise. -/
def generateSummary (s : CheckState) : CheckState × Nat :=
  let s := println ("\n" ++ hbar 50) s
  let s := println "Summary" s
  let s := println (hbar 50) s
  let s := println ("\nChecks performed: " ++ toString s.result.totalChecks) s
  let s := if s.result.totalErrors == 0 then println "Errors: 0 ✓" s
    else println ("Errors: " ++ toString s.result.totalErrors) s
  let s := if s.result.totalWarnings == 0 then println "Warnings: 0 ✓" s
    else println ("Warnings: " ++ toString s.result.totalWarnings) s
  let s := println "" s
  if s.result.totalErrors == 0 && s.result.totalWarnings == 0 then
    (println "✓ All checks passed!" s, 0)
  else if s.result.totalErrors == 0 then
    (println "⚠ All checks passed with warnings" s, 0)
  else
    let s := println "✗ Some checks failed" s
    let s := println "" s
    let s := println "💡 Complete project documentation is essential for effective development." s
    let s := println "   Get started with templates: pdocs template <type>" s
    let s := println "   Available types: product-requirements, system-design, api-contracts," s
    let s := println "                    data-plan, design-spec, user-flow, user-story, feature-spec" s
    (s, 1)

/-- check.ts `check`: one invocation of the `check` command, starting from
the module-initial counter state, returning the final state and the
`process.exit` code.  The unused `format` option is omitted. -/
def check (fs : FS) (docsDir : FsPath) (verbose checkLinks : Bool) : CheckState × Nat :=
  let s : CheckState := { result := initialResult, out := [] }
  let s := println (hbar 50) s
  let s := println "Project Documentation Check" s
  let s := println (hbar 50) s
  let s := println ("Documentation directory: " ++ pathToString docsDir) s
  let s := println "" s
  if !existsPath fs docsDir then
    (logError ("Documentation directory not found: " ++ pathToString docsDir) none s, 1)
  else
    let s := checkPrd fs docsDir verbose s
    let s := checkUserFlows fs docsDir verbose s
    let s := checkUserStories fs docsDir verbose s
    let s := checkFeatureSpecs fs docsDir verbose s
    let s := checkSystemDesign fs docsDir verbose s
    let s := checkApiContracts fs docsDir verbose s
    let s := checkDataPlan fs docsDir verbose s
    let s := checkDesignSpec fs docsDir verbose s
    let s := checkCrossReferences fs docsDir checkLinks verbose s
    generateSummary s

/-- list.ts `FeatureData`. -/
structure FeatureData where
  file : FsPath
  feature_id : String
  title : String
  status : String
  summary : String
  progress : Int
deriving DecidableEq, Repr

/-- Strip of the anchored regex `/^Technical Specification - /` used on
feature titles (`String.prototype.replace` with an anchored literal
pattern removes one leading occurrence). -/
def stripTechSpec (t : String) : String :=
  if strStartsWith t "Technical Specification - " then
    strDrop t "Technical Specification - ".length
  else t

/-- list.ts `parseFeature`. -/
def parseFeature (fs : FS) (file : FsPath) : Option FeatureData :=
  let data := loadYaml fs file
  if jFalsy data then none
  else
    let feature_id := getStr data "feature_id"
    let title0 := getStr data "title"
    let title1 := if title0 == "" then basenameStrip file ".yaml" else title0
    let title := stripTechSpec title1
    let status0 := getStr data "status"
    let status := if status0 == "" then "incomplete" else status0
    let summary := getStr data "summary"
    let implStatus := jGet data "implementation_status"
    let progress := if jFalsy implStatus then 0 else getNum implStatus "progress"
    some { file := file, feature_id := feature_id, title := title, status := status,
           summary := summary, progress := progress }

/-- Insertion step of the query layer's sorts. -/
def insertByKey {α : Type} (key : α → String) (x : α) : List α → List α
  | [] => [x]
  | y :: ys => if strLe (key x) (key y) then x :: y :: ys else y :: insertByKey key x ys

/-- Stable sort by a string key, modelling `Array.prototype.sort` with a
`localeCompare` comparator (modelled as code-point order; no claim depends
on the ordering of distinct keys). -/
def sortByKey {α : Type} (key : α → String) : List α → List α
  | [] => []
  | x :: xs => insertByKey key x (sortByKey key xs)

/-- Record-selection pipeline of list.ts `listFeatures` (lines 41–63): load
and parse every feature-spec file, hide `complete` items unless `showAll`,
apply the exact-match status filter, then the optional sort; the rendering
branches consume this list unchanged.  Dispatcher defaults
(`list`): `filterStatus` is `''` and `sortBy` is `'id'` when the
corresponding flags are absent. -/
def selectedFeatures (fs : FS) (docsDir : FsPath) (showAll : Bool)
    (filterStatus sortBy : String) : List FeatureData :=
  let featuresDir := docsDir ++ ["feature-specs"]
  let files := findYamlFiles fs featuresDir
  let features := files.filterMap (parseFeature fs)
  let features := if !showAll then features.filter (fun f => f.status != "complete") else features
  let features := if filterStatus != "" then features.filter (fun f => f.status == filterStatus)
    else features
  if sortBy == "title" then sortByKey (fun f => f.title) features
  else if sortBy == "status" then sortByKey (fun f => f.status) features
  else features

/-- list.ts `StoryData`. -/
structure StoryData where
  file : FsPath
  story_id : String
  title : String
  feature_id : String
  status : String
deriving DecidableEq, Repr

/-- list.ts `parseStory`. -/
def parseStory (fs : FS) (file : FsPath) : Option StoryData :=
  let data := loadYaml fs file
  if jFalsy data then none
  else
    let story_id := getStr data "story_id"
    let title0 := getStr data "title"
    let title := if title0 == "" then basenameStrip file ".yaml" else title0
    let feature_id := getStr data "feature_id"
    let status0 := getStr data "status"
    let status := if status0 == "" then "incomplete" else status0
    some { file := file, story_id := story_id, title := title, feature_id := feature_id,
           status := status }

/-- Record-selection pipeline of list.ts `listStories` (lines 252–272):
load and parse every story file, hide `complete` items unless `showAll`,
then the exact-match status and feature filters; the rendering branches
consume this list unchanged. -/
def selectedStories (fs : FS) (docsDir : FsPath) (showAll : Bool)
    (filterStatus filterFeature : String) : List StoryData :=
  let storiesDir := docsDir ++ ["user-stories"]
  let files := findYamlFiles fs storiesDir
  let stories := files.filterMap (parseStory fs)
  let stories := if !showAll then stories.filter (fun s => s.status != "complete") else stories
  let stories := if filterStatus != "" then stories.filter (fun s => s.status == filterStatus)
    else stories
  if filterFeature != "" then stories.filter (fun s => s.feature_id == filterFeature)
  else stories

theorem println_result (m : String) (s : CheckState) : (println m s).result = s.result := rfl

theorem logPass_result (m : String) (v : Bool) (s : CheckState) :
    (logPass m v s).result = s.result := rfl

theorem logInfo_result (m : String) (v : Bool) (s : CheckState) :
    (logInfo m v s).result = s.result := rfl

theorem logCheck_result (m : String) (v : Bool) (s : CheckState) :
    (logCheck m v s).result = { s.result with totalChecks := s.result.totalChecks + 1 } := rfl

theorem logWarn_result (m : String) (s : CheckState) :
    (logWarn m s).result = { s.result with totalWarnings := s.result.totalWarnings + 1 } := rfl

theorem logError_result (m : String) (hint : Option String) (s : CheckState) :
    (logError m hint s).result = { s.result with totalErrors := s.result.totalErrors + 1 } := rfl

theorem checkFileExists_snd (fs : FS) (file : FsPath) (label : String) (v : Bool)
    (t : Option String) (s : CheckState) :
    (checkFileExists fs file label v t s).2 = existsPath fs file := by
  unfold checkFileExists
  split <;> simp_all

theorem checkFileExists_result (fs : FS) (file : FsPath) (label : String) (v : Bool)
    (t : Option String) (s : CheckState) :
    (checkFileExists fs file label v t s).1.result =
      (if existsPath fs file then
        { s.result with totalChecks := s.result.totalChecks + 1 }
      else
        { totalChecks := s.result.totalChecks + 1, totalErrors := s.result.totalErrors + 1,
          totalWarnings := s.result.totalWarnings }) := by
  unfold checkFileExists
  split <;> simp_all [logPass_result, logError_result, logCheck_result]

/-- Proof-side predicate: exactly when `checkYamlField` warns. -/
def cyfWarn (fs : FS) (file : FsPath) (field : String) : Bool :=
  existsPath fs file && !jFalsy (loadYaml fs file) &&
    (getStr (loadYaml fs file) field == "" || getStr (loadYaml fs file) field == "\"\"")

theorem checkYamlField_result (fs : FS) (file : FsPath) (field label : String) (s : CheckState) :
    (checkYamlField fs file field label s).1.result =
      (if cyfWarn fs file field then
        { s.result with totalWarnings := s.result.totalWarnings + 1 }
      else s.result) := by
  unfold checkYamlField cyfWarn
  cases hex : existsPath fs file <;> cases hf : jFalsy (loadYaml fs file) <;>
    simp [hex, hf, logWarn_result] <;> split <;> simp_all [logWarn_result]

theorem generateSummary_result (s : CheckState) : (generateSummary s).1.result = s.result := by
  unfold generateSummary
  simp [apply_ite CheckState.result, apply_ite Prod.fst, println_result]

theorem generateSummary_code (s : CheckState) :
    (generateSummary s).2 = (if s.result.totalErrors = 0 then 0 else 1) := by
  unfold generateSummary
  simp [apply_ite Prod.snd, apply_ite CheckState.result, println_result]
  by_cases he : s.result.totalErrors = 0 <;>
    by_cases hw : s.result.totalWarnings = 0 <;>
      simp [he, hw]

theorem flowStep_req (fs : FS) (v v' : Bool) (s s' : CheckState) (a : FsPath)
    (h : s.result = s'.result) :
    (flowStep fs v s a).result = (flowStep fs v' s' a).result := by
  unfold flowStep
  simp [apply_ite CheckState.result, logCheck_result, logWarn_result, h]

theorem foldl_flow_req (fs : FS) (l : List FsPath) (v v' : Bool) :
    ∀ (s s' : CheckState), s.result = s'.result →
      (l.foldl (flowStep fs v) s).result = (l.foldl (flowStep fs v') s').result := by
  induction l with
  | nil => intro s s' h; simpa using h
  | cons a t ih =>
      intro s s' h
      simp only [List.foldl_cons]
      exact ih _ _ (flowStep_req fs v v' s s' a h)

theorem userStoryStep_req (fs : FS) (st st' : CheckState × Nat × Nat) (a : FsPath)
    (h : st.1.result = st'.1.result) (h2 : st.2 = st'.2) :
    (userStoryStep fs st a).1.result = (userStoryStep fs st' a).1.result ∧
      (userStoryStep fs st a).2 = (userStoryStep fs st' a).2 := by
  unfold userStoryStep
  cases hf : jFalsy (loadYaml fs a) <;>
    simp [hf, apply_ite CheckState.result, apply_ite (Prod.fst (β := Nat × Nat)),
      apply_ite (Prod.snd (α := CheckState)), logWarn_result, h, h2]

theorem foldl_story_req (fs : FS) (l : List FsPath) :
    ∀ (st st' : CheckState × Nat × Nat), st.1.result = st'.1.result → st.2 = st'.2 →
      (l.foldl (userStoryStep fs) st).1.result = (l.foldl (userStoryStep fs) st').1.result ∧
        (l.foldl (userStoryStep fs) st).2 = (l.foldl (userStoryStep fs) st').2 := by
  induction l with
  | nil => intro st st' h h2; exact ⟨h, h2⟩
  | cons a t ih =>
      intro st st' h h2
      simp only [List.foldl_cons]
      obtain ⟨g, g2⟩ := userStoryStep_req fs st st' a h h2
      exact ih _ _ g g2

theorem featureStep_req (fs : FS) (st st' : CheckState × Nat × Nat) (a : FsPath)
    (h : st.1.result = st'.1.result) (h2 : st.2 = st'.2) :
    (featureStep fs st a).1.result = (featureStep fs st' a).1.result ∧
      (featureStep fs st a).2 = (featureStep fs st' a).2 := by
  unfold featureStep
  cases hf : jFalsy (loadYaml fs a) <;>
    simp [hf, checkYamlField_result, apply_ite CheckState.result,
      apply_ite (Prod.fst (β := Nat × Nat)), apply_ite (Prod.snd (α := CheckState)),
      logWarn_result, h, h2]

theorem foldl_feature_req (fs : FS) (l : List FsPath) :
    ∀ (st st' : CheckState × Nat × Nat), st.1.result = st'.1.result → st.2 = st'.2 →
      (l.foldl (featureStep fs) st).1.result = (l.foldl (featureStep fs) st').1.result ∧
        (l.foldl (featureStep fs) st).2 = (l.foldl (featureStep fs) st').2 := by
  induction l with
  | nil => intro st st' h h2; exact ⟨h, h2⟩
  | cons a t ih =>
      intro st st' h h2
      simp only [List.foldl_cons]
      obtain ⟨g, g2⟩ := featureStep_req fs st st' a h h2
      exact ih _ _ g g2

theorem crossRefFeatureStep_req (fs : FS) (ff : List FsPath) (v v' : Bool)
    (s s' : CheckState) (a : String) (h : s.result = s'.result) :
    (crossRefFeatureStep fs ff v s a).result = (crossRefFeatureStep fs ff v' s' a).result := by
  unfold crossRefFeatureStep
  simp [apply_ite CheckState.result, logCheck_result, logWarn_result, logPass_result, h]

theorem foldl_crossFeature_req (fs : FS) (ff : List FsPath) (l : List String) (v v' : Bool) :
    ∀ (s s' : CheckState), s.result = s'.result →
      (l.foldl (crossRefFeatureStep fs ff v) s).result =
        (l.foldl (crossRefFeatureStep fs ff v') s').result := by
  induction l with
  | nil => intro s s' h; simpa using h
  | cons a t ih =>
      intro s s' h
      simp only [List.foldl_cons]
      exact ih _ _ (crossRefFeatureStep_req fs ff v v' s s' a h)

theorem crossRefStoryStep_req (fs : FS) (ids : List String) (s s' : CheckState) (a : FsPath)
    (h : s.result = s'.result) :
    (crossRefStoryStep fs ids s a).result = (crossRefStoryStep fs ids s' a).result := by
  unfold crossRefStoryStep
  cases hf : jFalsy (loadYaml fs a) <;>
    simp [hf, apply_ite CheckState.result, logWarn_result, h]

theorem foldl_crossStory_req (fs : FS) (ids : List String) (l : List FsPath) :
    ∀ (s s' : CheckState), s.result = s'.result →
      (l.foldl (crossRefStoryStep fs ids) s).result =
        (l.foldl (crossRefStoryStep fs ids) s').result := by
  induction l with
  | nil => intro s s' h; simpa using h
  | cons a t ih =>
      intro s s' h
      simp only [List.foldl_cons]
      exact ih _ _ (crossRefStoryStep_req fs ids s s' a h)

theorem checkPrd_req (fs : FS) (d : FsPath) (v v' : Bool) (s s' : CheckState)
    (h : s.result = s'.result) :
    (checkPrd fs d v s).result = (checkPrd fs d v' s').result := by
  unfold checkPrd
  simp only [checkFileExists_snd]
  cases hex : existsPath fs (d ++ ["product-requirements.yaml"]) <;>
    simp [hex, checkFileExists_result, checkYamlField_result, println_result,
      apply_ite CheckState.result, logWarn_result, logInfo_result, h]

theorem checkUserFlows_req (fs : FS) (d : FsPath) (v v' : Bool) (s s' : CheckState)
    (h : s.result = s'.result) :
    (checkUserFlows fs d v s).result = (checkUserFlows fs d v' s').result := by
  unfold checkUserFlows
  cases hex : existsPath fs (d ++ ["user-flows"]) <;>
    cases hlen : ((findYamlFiles fs (d ++ ["user-flows"])).length == 0) <;>
      simp [hex, hlen, println_result, logError_result, logInfo_result, logWarn_result, h]
  all_goals
    exact foldl_flow_req fs _ v v' _ _ (by simp [logInfo_result, println_result, h])

theorem checkUserStories_req (fs : FS) (d : FsPath) (v v' : Bool) (s s' : CheckState)
    (h : s.result = s'.result) :
    (checkUserStories fs d v s).result = (checkUserStories fs d v' s').result := by
  unfold checkUserStories
  cases hex : existsPath fs (d ++ ["user-stories"]) <;>
    cases hlen : ((findYamlFiles fs (d ++ ["user-stories"])).length == 0) <;>
      simp [hex, hlen, println_result, logError_result, logInfo_result, logWarn_result, h]
  all_goals
    refine (foldl_story_req fs _ _ _ ?_ ?_).1 <;>
      simp [logInfo_result, println_result, h]

theorem checkFeatureSpecs_req (fs : FS) (d : FsPath) (v v' : Bool) (s s' : CheckState)
    (h : s.result = s'.result) :
    (checkFeatureSpecs fs d v s).result = (checkFeatureSpecs fs d v' s').result := by
  unfold checkFeatureSpecs
  cases hex : existsPath fs (d ++ ["feature-specs"]) <;>
    cases hlen : ((findYamlFiles fs (d ++ ["feature-specs"])).length == 0) <;>
      simp [hex, hlen, println_result, logError_result, logInfo_result, logWarn_result, h]
  all_goals
    refine (foldl_feature_req fs _ _ _ ?_ ?_).1 <;>
      simp [logInfo_result, println_result, h]

theorem checkSystemDesign_req (fs : FS) (d : FsPath) (v v' : Bool) (s s' : CheckState)
    (h : s.result = s'.result) :
    (checkSystemDesign fs d v s).result = (checkSystemDesign fs d v' s').result := by
  unfold checkSystemDesign
  simp only [checkFileExists_snd]
  cases hex : existsPath fs (d ++ ["system-design.yaml"]) <;>
    simp [hex, checkFileExists_result, checkYamlField_result, println_result,
      apply_ite CheckState.result, logWarn_result, h]

theorem checkApiContracts_req (fs : FS) (d : FsPath) (v v' : Bool) (s s' : CheckState)
    (h : s.result = s'.result) :
    (checkApiContracts fs d v s).result = (checkApiContracts fs d v' s').result := by
  unfold checkApiContracts
  simp only [checkFileExists_snd]
  cases hex : existsPath fs (d ++ ["api-contracts.yaml"]) <;>
    simp [hex, checkFileExists_result, println_result, apply_ite CheckState.result,
      logWarn_result, logInfo_result, h]

theorem checkDataPlan_req (fs : FS) (d : FsPath) (v v' : Bool) (s s' : CheckState)
    (h : s.result = s'.result) :
    (checkDataPlan fs d v s).result = (checkDataPlan fs d v' s').result := by
  unfold checkDataPlan
  simp only [checkFileExists_snd]
  cases hex : existsPath fs (d ++ ["data-plan.yaml"]) <;>
    simp [hex, checkFileExists_result, println_result, apply_ite CheckState.result,
      logInfo_result, h]

theorem checkDesignSpec_req (fs : FS) (d : FsPath) (v v' : Bool) (s s' : CheckState)
    (h : s.result = s'.result) :
    (checkDesignSpec fs d v s).result = (checkDesignSpec fs d v' s').result := by
  unfold checkDesignSpec
  simp only [checkFileExists_snd]
  cases hex : existsPath fs (d ++ ["design-spec.yaml"]) <;>
    simp [hex, checkFileExists_result, checkYamlField_result, println_result, h]

theorem checkCrossReferences_req (fs : FS) (d : FsPath) (l v v' : Bool) (s s' : CheckState)
    (h : s.result = s'.result) :
    (checkCrossReferences fs d l v s).result = (checkCrossReferences fs d l v' s').result := by
  unfold checkCrossReferences
  cases l with
  | false => simpa using h
  | true =>
      cases hf : jFalsy (loadYaml fs (d ++ ["product-requirements.yaml"])) <;>
        cases hn : ((prdFeatureIds (loadYaml fs (d ++ ["product-requirements.yaml"]))).length == 0) <;>
          simp [hf, hn, println_result, logWarn_result, h]
      all_goals
        cases hsd : existsPath fs (d ++ ["user-stories"]) <;>
          cases hfd : existsPath fs (d ++ ["feature-specs"]) <;> simp [hsd, hfd]
      all_goals
        first
          | exact foldl_crossStory_req fs _ _ _ _
              (foldl_crossFeature_req fs _ _ v v' _ _ (by simp [println_result, h]))
          | exact foldl_crossStory_req fs _ _ _ _ (by simp [println_result, h])
          | exact foldl_crossFeature_req fs _ _ v v' _ _ (by simp [println_result, h])
          | simp [println_result, h]

theorem checkPipeline_req (fs : FS) (d : FsPath) (l v v' : Bool) (s s' : CheckState)
    (h : s.result = s'.result) :
    (checkCrossReferences fs d l v (checkDesignSpec fs d v (checkDataPlan fs d v
      (checkApiContracts fs d v (checkSystemDesign fs d v (checkFeatureSpecs fs d v
        (checkUserStories fs d v (checkUserFlows fs d v (checkPrd fs d v s))))))))).result =
    (checkCrossReferences fs d l v' (checkDesignSpec fs d v' (checkDataPlan fs d v'
      (checkApiContracts fs d v' (checkSystemDesign fs d v' (checkFeatureSpecs fs d v'
        (checkUserStories fs d v' (checkUserFlows fs d v' (checkPrd fs d v' s'))))))))).result := by
  apply checkCrossReferences_req
  apply checkDesignSpec_req
  apply checkDataPlan_req
  apply checkApiContracts_req
  apply checkSystemDesign_req
  apply checkFeatureSpecs_req
  apply checkUserStories_req
  apply checkUserFlows_req
  exact checkPrd_req fs d v v' s s' h

/-- C1: for every documentation tree (and docs-dir path, and flag choice),
the exit status of the `check` command is 0 exactly when the accumulated
error counter is zero at the end of the run; a nonzero warning counter with
zero errors still exits 0, since the code depends on the error counter
alone. -/
theorem check_exit_zero_iff_no_errors (fs : FS) (d : FsPath) (v l : Bool) :
    (check fs d v l).2 = 0 ↔ (check fs d v l).1.result.totalErrors = 0 := by
  unfold check
  cases hex : existsPath fs d with
  | false => simp [hex, logError_result, println_result, initialResult]
  | true =>
      simp only [hex, Bool.not_true, Bool.false_eq_true, if_false]
      rw [generateSummary_code, generateSummary_result]
      split <;> simp_all

/-- C4: the counters a run starts from are the zero-initialized module
state (each CLI invocation is a fresh process, and `process.exit` at the
end of `check` makes a second in-process run impossible), and the final
counters and exit code are a function of the documentation tree alone, so
two runs of `check` against an unmodified tree produce identical counter
values and identical exit codes. -/
theorem check_runs_deterministic :
    initialResult = { totalChecks := 0, totalErrors := 0, totalWarnings := 0 } ∧
      ∀ (fs₁ fs₂ : FS) (d : FsPath) (v l : Bool), fs₁ = fs₂ →
        (check fs₁ d v l).1.result = (check fs₂ d v l).1.result ∧
          (check fs₁ d v l).2 = (check fs₂ d v l).2 := by
  refine ⟨rfl, ?_⟩
  rintro fs₁ fs₂ d v l rfl
  exact ⟨rfl, rfl⟩

theorem check_runs_deterministic_w :
    (check { dirs := [], files := [] } ["docs"] false true).1.result =
        (check { dirs := [], files := [] } ["docs"] false true).1.result ∧
      (check { dirs := [], files := [] } ["docs"] false true).2 =
        (check { dirs := [], files := [] } ["docs"] false true).2 :=
  check_runs_deterministic.2 { dirs := [], files := [] } { dirs := [], files := [] }
    ["docs"] false true rfl

/-- C8: a `check` run with verbose output and the same run without it
produce identical values of all three counters and the identical exit
code; the verbose flag only gates `[CHECK]`/`[PASS]`/`[INFO]` print
lines. -/
theorem verbose_invariance (fs : FS) (d : FsPath) (l v : Bool) :
    (check fs d v l).1.result = (check fs d false l).1.result ∧
      (check fs d v l).2 = (check fs d false l).2 := by
  unfold check
  cases hex : existsPath fs d with
  | false => simp [hex]
  | true =>
      simp only [hex, Bool.not_true, Bool.false_eq_true, if_false]
      constructor
      · rw [generateSummary_result, generateSummary_result]
        exact checkPipeline_req fs d l v false _ _ rfl
      · rw [generateSummary_code, generateSummary_code,
          checkPipeline_req fs d l v false _ _ rfl]

/-- C9: when the discovered docs directory already contains `CLAUDE.md`,
`ensureClaudeDoc` returns before reading or writing anything: the file
store (hence the existing file's contents and every other file) is
returned unchanged and nothing is printed. -/
theorem ensureClaudeDoc_noop_when_present (st : Store) (docsDir tdir : FsPath)
    (h : (storeGet st (docsDir ++ ["CLAUDE.md"])).isSome = true) :
    ensureClaudeDoc st docsDir tdir = (st, []) := by
  unfold ensureClaudeDoc
  simp [h]

theorem ensureClaudeDoc_noop_when_present_w :
    ensureClaudeDoc [(["docs", "CLAUDE.md"], "existing content")] ["docs"]
        ["usr", "lib", "pdocs", "templates"] =
      ([(["docs", "CLAUDE.md"], "existing content")], []) :=
  ensureClaudeDoc_noop_when_present [(["docs", "CLAUDE.md"], "existing content")] ["docs"]
    ["usr", "lib", "pdocs", "templates"] (by decide)

/-- C2 counterexample: the four field accessors applied to the loader's
null sentinel do not return their zero-values — property access on a
null/undefined receiver throws a TypeError (modelled as `.error ()`), so
the claim's accessor conjunction fails at the sentinel itself. -/
theorem null_sentinel_accessors_cex :
    ¬ (getString JVal.jNull "summary" = Except.ok "" ∧
        getNumber JVal.jNull "progress" = Except.ok 0 ∧
        getArray JVal.jNull "features" = Except.ok [] ∧
        getNestedString JVal.jNull "user_story" "as_a" = Except.ok "") := by
  intro h
  exact absurd h.1 (by simp [getString])

/-- C2 (amended): for every file whose contents fail to parse, the loader
returns the null sentinel; the four accessors applied to that sentinel
throw a TypeError instead of returning; applied to any parsed record in
which the key is absent or holds a value of the wrong type — no string for
`getString`, neither a number nor a (parse-attempted) string for
`getNumber`, no array for `getArray`, and for `getNestedString` either no
object under the parent key or no string under the child key — they
return their zero-values `''`, `0`, `[]`, `''`. -/
theorem null_sentinel_accessors_amended :
    (∀ (fs : FS) (p : FsPath) (entry : FsPath × ParseOutcome),
        fs.files.find? (fun q => decide (q.1 = p)) = some entry →
        entry.2 = ParseOutcome.fail → loadYaml fs p = JVal.jNull) ∧
      (getString JVal.jNull "k" = Except.error () ∧
        getNumber JVal.jNull "k" = Except.error () ∧
        getArray JVal.jNull "k" = Except.error () ∧
        getNestedString JVal.jNull "p" "c" = Except.error ()) ∧
      (∀ (fields : List (String × JVal)) (key : String),
        ((∀ s, lookupField fields key ≠ some (JVal.jStr s)) →
            getString (JVal.jObj fields) key = Except.ok "") ∧
          ((∀ n, lookupField fields key ≠ some (JVal.jNum n)) →
            (∀ s, lookupField fields key ≠ some (JVal.jStr s)) →
            getNumber (JVal.jObj fields) key = Except.ok 0) ∧
          ((∀ xs, lookupField fields key ≠ some (JVal.jArr xs)) →
            getArray (JVal.jObj fields) key = Except.ok []) ∧
          (∀ child,
            ((∀ pf, lookupField fields key ≠ some (JVal.jObj pf)) →
              getNestedString (JVal.jObj fields) key child = Except.ok "") ∧
            (∀ pf, lookupField fields key = some (JVal.jObj pf) →
              (∀ s, lookupField pf child ≠ some (JVal.jStr s)) →
              getNestedString (JVal.jObj fields) key child = Except.ok ""))) := by
  refine ⟨?_, ⟨rfl, rfl, rfl, rfl⟩, ?_⟩
  · intro fs p entry hfind hfail
    obtain ⟨a, b⟩ := entry
    simp only at hfail
    subst hfail
    unfold loadYaml
    rw [hfind]
  · intro fields key
    refine ⟨?_, ?_, ?_, ?_⟩
    · intro h
      cases hl : lookupField fields key with
      | none => simp [getString, hl]
      | some v => cases v <;> simp_all [getString]
    · intro hn hs
      cases hl : lookupField fields key with
      | none => simp [getNumber, hl]
      | some v => cases v <;> simp_all [getNumber]
    · intro h
      cases hl : lookupField fields key with
      | none => simp [getArray, hl]
      | some v => cases v <;> simp_all [getArray]
    · intro child
      constructor
      · intro h
        cases hl : lookupField fields key with
        | none => simp [getNestedString, hl]
        | some v => cases v <;> simp_all [getNestedString]
      · intro pf hpf h
        cases hl : lookupField pf child with
        | none => simp [getNestedString, hpf, hl]
        | some v => cases v <;> simp_all [getNestedString]

theorem null_sentinel_accessors_amended_w :
    loadYaml { dirs := [], files := [(["docs", "bad.yaml"], ParseOutcome.fail)] }
        ["docs", "bad.yaml"] = JVal.jNull ∧
      getString (JVal.jObj [("f", JVal.jBool true)]) "f" = Except.ok "" ∧
      getNumber (JVal.jObj [("f", JVal.jBool true)]) "f" = Except.ok 0 ∧
      getArray (JVal.jObj [("f", JVal.jBool true)]) "f" = Except.ok [] ∧
      getNestedString (JVal.jObj [("f", JVal.jBool true)]) "f" "c" = Except.ok "" ∧
      getNestedString (JVal.jObj [("user_story", JVal.jObj [("as_a", JVal.jNum 3)])])
        "user_story" "as_a" = Except.ok "" ∧
      getString (JVal.jObj []) "missing" = Except.ok "" :=
  ⟨null_sentinel_accessors_amended.1
      { dirs := [], files := [(["docs", "bad.yaml"], ParseOutcome.fail)] }
      ["docs", "bad.yaml"] (["docs", "bad.yaml"], ParseOutcome.fail) (by rfl) rfl,
    (null_sentinel_accessors_amended.2.2 [("f", JVal.jBool true)] "f").1
      (by simp [lookupField]),
    (null_sentinel_accessors_amended.2.2 [("f", JVal.jBool true)] "f").2.1
      (by simp [lookupField]) (by simp [lookupField]),
    (null_sentinel_accessors_amended.2.2 [("f", JVal.jBool true)] "f").2.2.1
      (by simp [lookupField]),
    ((null_sentinel_accessors_amended.2.2 [("f", JVal.jBool true)] "f").2.2.2 "c").1
      (by simp [lookupField]),
    ((null_sentinel_accessors_amended.2.2 [("user_story", JVal.jObj [("as_a", JVal.jNum 3)])]
          "user_story").2.2.2 "as_a").2 [("as_a", JVal.jNum 3)]
      (by simp [lookupField]) (by simp [lookupField]),
    (null_sentinel_accessors_amended.2.2 [] "missing").1 (by simp [lookupField])⟩

/-- Directory sets for the C6 discovery scenarios: a tree whose `docs`
marker sits three levels above the starting directory, and one with no
`docs` anywhere on the ancestor chain. -/
def dirsWithDocs : List FsPath :=
  [["home"], ["home", "u"], ["home", "u", "proj"], ["home", "u", "proj", "docs"],
    ["home", "u", "proj", "a"], ["home", "u", "proj", "a", "b"],
    ["home", "u", "proj", "a", "b", "c"]]

/-- See `dirsWithDocs`. -/
def dirsNoDocs : List FsPath := [["x"], ["x", "y"], ["x", "y", "z"]]

theorem findAux_sound (dirs : List FsPath) :
    ∀ (rcwd : List String) (d : FsPath), findAux dirs rcwd = some d →
      ∃ rq rt, rq ≠ [] ∧ rt ++ rq = rcwd ∧ d = rq.reverse ++ ["docs"] ∧ d ∈ dirs ∧
        ∀ (rq₂ rt₂ : List String), rt₂ ++ rq₂ = rcwd → rq₂.reverse ++ ["docs"] ∈ dirs →
          rq₂.length ≤ rq.length := by
  intro rcwd
  induction rcwd with
  | nil => intro d h; simp [findAux] at h
  | cons seg rest ih =>
      intro d h
      rw [findAux] at h
      by_cases hd : (seg :: rest).reverse ++ ["docs"] ∈ dirs
      · rw [if_pos hd] at h
        obtain rfl : (seg :: rest).reverse ++ ["docs"] = d := Option.some.inj h
        refine ⟨seg :: rest, [], by simp, rfl, rfl, hd, ?_⟩
        intro rq₂ rt₂ he _
        have hlen := congrArg List.length he
        simp only [List.length_append, List.length_cons] at hlen ⊢
        omega
      · rw [if_neg hd] at h
        obtain ⟨rq, rt, hne, heq, hdd, hmem, hmax⟩ := ih d h
        refine ⟨rq, seg :: rt, hne, ?_, hdd, hmem, ?_⟩
        · rw [List.cons_append, heq]
        · intro rq₂ rt₂ he hm
          cases rt₂ with
          | nil =>
              simp only [List.nil_append] at he
              rw [he] at hm
              exact absurd hm hd
          | cons x xs =>
              rw [List.cons_append] at he
              exact hmax rq₂ xs (List.cons.inj he).2 hm

theorem findAux_none (dirs : List FsPath) :
    ∀ (rcwd : List String), findAux dirs rcwd = none →
      ∀ (rq rt : List String), rq ≠ [] → rt ++ rq = rcwd → rq.reverse ++ ["docs"] ∉ dirs := by
  intro rcwd
  induction rcwd with
  | nil =>
      intro _ rq rt hne he
      have : rq = [] := by
        cases rq with
        | nil => rfl
        | cons a as => simp at he
      exact absurd this hne
  | cons seg rest ih =>
      intro h rq rt hne he
      rw [findAux] at h
      by_cases hd : (seg :: rest).reverse ++ ["docs"] ∈ dirs
      · rw [if_pos hd] at h
        exact absurd h (by simp)
      · rw [if_neg hd] at h
        cases rt with
        | nil =>
            simp only [List.nil_append] at he
            rw [he]
            exact hd
        | cons x xs =>
            rw [List.cons_append] at he
            exact ih h rq xs hne (List.cons.inj he).2

/-- C6: docs-directory discovery walks only upward from the working
directory.  (i) Whatever it returns is the `docs` child of an ancestor of
(or equal to) the working directory, that `docs` directory exists, and the
ancestor is the nearest one carrying a `docs` child — so descendants and
siblings are never chosen and the first hit going upward wins;  (ii) when
it returns "not found", no walked ancestor (the filesystem root itself is
never walked) has a `docs` child;  (iii) starting three levels below a
folder containing `docs` returns that docs folder's absolute path; and
(iv) starting outside any such tree returns "not found". -/
theorem findDocsDir_contract :
    (∀ (dirs : List FsPath) (cwd : FsPath) (d : FsPath),
        findDocsDirFrom dirs cwd = some d →
        ∃ q t, q ≠ [] ∧ q ++ t = cwd ∧ d = q ++ ["docs"] ∧ d ∈ dirs ∧
          ∀ (q₂ t₂ : List String), q₂ ++ t₂ = cwd → q₂ ++ ["docs"] ∈ dirs →
            q₂.length ≤ q.length) ∧
      (∀ (dirs : List FsPath) (cwd : FsPath), findDocsDirFrom dirs cwd = none →
        ∀ (q t : List String), q ≠ [] → q ++ t = cwd → q ++ ["docs"] ∉ dirs) ∧
      findDocsDirFrom dirsWithDocs ["home", "u", "proj", "a", "b", "c"] =
        some ["home", "u", "proj", "docs"] ∧
      findDocsDirFrom dirsNoDocs ["x", "y", "z"] = none := by
  refine ⟨?_, ?_, by decide, by decide⟩
  · intro dirs cwd d h
    obtain ⟨rq, rt, hne, heq, hdd, hmem, hmax⟩ := findAux_sound dirs cwd.reverse d h
    refine ⟨rq.reverse, rt.reverse, by simpa using hne, ?_, hdd, hmem, ?_⟩
    · have := congrArg List.reverse heq
      simpa using this
    · intro q₂ t₂ he₂ hm₂
      have he₂' : t₂.reverse ++ q₂.reverse = cwd.reverse := by
        have := congrArg List.reverse he₂
        simpa using this
      have := hmax q₂.reverse t₂.reverse he₂' (by simpa using hm₂)
      simpa using this
  · intro dirs cwd h q t hne he
    have he' : t.reverse ++ q.reverse = cwd.reverse := by
      have := congrArg List.reverse he
      simpa using this
    have := findAux_none dirs cwd.reverse h q.reverse t.reverse (by simpa using hne) he'
    simpa using this

theorem findDocsDir_contract_w :
    ∃ q t, q ≠ [] ∧ q ++ t = (["home", "u", "proj", "a", "b", "c"] : FsPath) ∧
      (["home", "u", "proj", "docs"] : FsPath) = q ++ ["docs"] ∧
      (["home", "u", "proj", "docs"] : FsPath) ∈ dirsWithDocs ∧
      ∀ (q₂ t₂ : List String), q₂ ++ t₂ = (["home", "u", "proj", "a", "b", "c"] : FsPath) →
        q₂ ++ ["docs"] ∈ dirsWithDocs → q₂.length ≤ q.length :=
  findDocsDir_contract.1 dirsWithDocs ["home", "u", "proj", "a", "b", "c"]
    ["home", "u", "proj", "docs"] (by decide)

/-- True exactly for the `[WARN]`-tagged output lines, compared on the
first six characters. -/
def isWarnLine (ln : String) : Bool := strStartsWith ln "[WARN]"

/-- C3 fixture: a PRD declaring exactly the features `F-01` and `F-02`,
and a feature-specs directory whose single file declares
`feature_id: F-01`. -/
def fsTwoFeatures : FS :=
  { dirs := [["docs"], ["docs", "feature-specs"]],
    files :=
      [(["docs", "product-requirements.yaml"],
          .success (.jObj [("features",
            .jArr [.jObj [("id", .jStr "F-01")], .jObj [("id", .jStr "F-02")]])])),
        (["docs", "feature-specs", "f-01-spec.yaml"],
          .success (.jObj [("feature_id", .jStr "F-01")]))] }

/-- C3: on a PRD declaring `F-01` and `F-02` with only `F-01` having a
specification file, the cross-reference check (in either verbosity) adds
exactly one warning and zero errors, and the single warning line names
`F-02` as the feature lacking a specification. -/
theorem crossref_missing_spec_single_warning :
    ∀ v : Bool,
      (checkCrossReferences fsTwoFeatures ["docs"] true v
          { result := initialResult, out := [] }).result.totalWarnings = 1 ∧
        (checkCrossReferences fsTwoFeatures ["docs"] true v
          { result := initialResult, out := [] }).result.totalErrors = 0 ∧
        (checkCrossReferences fsTwoFeatures ["docs"] true v
            { result := initialResult, out := [] }).out.filter isWarnLine =
          ["[WARN] Feature F-02 (in PRD) has no specification file"] := by
  intro v
  cases v <;> decide

/-- C5 fixture: three feature-spec files with statuses `complete`,
`in-progress` and `incomplete`. -/
def fsThreeStatuses : FS :=
  { dirs := [["docs"], ["docs", "feature-specs"]],
    files :=
      [(["docs", "feature-specs", "a.yaml"],
          .success (.jObj [("feature_id", .jStr "F-01"), ("title", .jStr "Alpha"),
            ("status", .jStr "complete"), ("summary", .jStr "done")])),
        (["docs", "feature-specs", "b.yaml"],
          .success (.jObj [("feature_id", .jStr "F-02"), ("title", .jStr "Beta"),
            ("status", .jStr "in-progress"), ("summary", .jStr "wip")])),
        (["docs", "feature-specs", "c.yaml"],
          .success (.jObj [("feature_id", .jStr "F-03"), ("title", .jStr "Gamma"),
            ("status", .jStr "incomplete"), ("summary", .jStr "todo")]))] }

/-- C5: with default options (`filterStatus` empty, default sort), the
query layer without the include-all flag returns exactly the records whose
status is not `complete`, and with the flag it returns all records — for
features and for stories; concretely, on three feature records with
statuses `complete`, `in-progress` and `incomplete`, the default query
returns exactly the two non-complete records and the flagged query all
three. -/
theorem default_filter_hides_complete :
    (∀ (fs : FS) (d : FsPath) (f : FeatureData),
        f ∈ selectedFeatures fs d false "" "id" ↔
          f ∈ selectedFeatures fs d true "" "id" ∧ f.status ≠ "complete") ∧
      (∀ (fs : FS) (d : FsPath) (st : StoryData),
        st ∈ selectedStories fs d false "" "" ↔
          st ∈ selectedStories fs d true "" "" ∧ st.status ≠ "complete") ∧
      selectedFeatures fsThreeStatuses ["docs"] false "" "id" =
        [{ file := ["docs", "feature-specs", "b.yaml"], feature_id := "F-02", title := "Beta",
            status := "in-progress", summary := "wip", progress := 0 },
          { file := ["docs", "feature-specs", "c.yaml"], feature_id := "F-03", title := "Gamma",
            status := "incomplete", summary := "todo", progress := 0 }] ∧
      selectedFeatures fsThreeStatuses ["docs"] true "" "id" =
        [{ file := ["docs", "feature-specs", "a.yaml"], feature_id := "F-01", title := "Alpha",
            status := "complete", summary := "done", progress := 0 },
          { file := ["docs", "feature-specs", "b.yaml"], feature_id := "F-02", title := "Beta",
            status := "in-progress", summary := "wip", progress := 0 },
          { file := ["docs", "feature-specs", "c.yaml"], feature_id := "F-03", title := "Gamma",
            status := "incomplete", summary := "todo", progress := 0 }] := by
  refine ⟨?_, ?_, by decide, by decide⟩
  · intro fs d f
    unfold selectedFeatures
    simp [List.mem_filter]
  · intro fs d st
    unfold selectedStories
    simp [List.mem_filter]

/-- C7: for every story file, the cross-reference story scan warns —
naming the story and the dangling reference — exactly when the story's
`feature_id` is non-empty, differs from the `F-##` placeholder sentinel,
and is not among the PRD's declared feature identifiers; otherwise it
leaves the state untouched. -/
theorem story_dangling_warning_iff (fs : FS) (ids : List String) (s : CheckState)
    (file : FsPath) :
    crossRefStoryStep fs ids s file =
      (if getStr (loadYaml fs file) "feature_id" ≠ "" ∧
          getStr (loadYaml fs file) "feature_id" ≠ "F-##" ∧
          getStr (loadYaml fs file) "feature_id" ∉ ids
        then logWarn ("Story " ++ getStr (loadYaml fs file) "story_id" ++
          " references unknown feature: " ++ getStr (loadYaml fs file) "feature_id") s
        else s) := by
  unfold crossRefStoryStep
  generalize loadYaml fs file = data
  cases data <;> simp [jFalsy, getStr, jGet, and_assoc]

/-- C10: the engine's field-presence check treats the literal two-character
string `""` exactly like a missing or empty field: `checkYamlField` emits
its "is empty" warning (and reports failure) whenever the extracted value
is `'""'` or `''`, and the story `as_a` check likewise warns that the user
story is incomplete when `user_story.as_a` is the literal `'""'`. -/
theorem quoted_literal_treated_empty :
    (∀ (fs : FS) (file : FsPath) (field label : String) (s : CheckState),
        existsPath fs file = true →
        jFalsy (loadYaml fs file) = false →
        (getStr (loadYaml fs file) field = "\"\"" ∨ getStr (loadYaml fs file) field = "") →
        checkYamlField fs file field label s =
          (logWarn (label ++ ": '" ++ field ++ "' is empty in " ++ pbasename file) s, false)) ∧
      (∀ (fs : FS) (st : CheckState × Nat × Nat) (storyFile : FsPath),
        jFalsy (loadYaml fs storyFile) = false →
        getNested (loadYaml fs storyFile) "user_story" "as_a" = "\"\"" →
        (userStoryStep fs st storyFile).1 =
          logWarn ("Story " ++ getStr (loadYaml fs storyFile) "story_id" ++
            " has incomplete user story definition") st.1) := by
  constructor
  · intro fs file field label s hex hf hv
    unfold checkYamlField
    rcases hv with hv | hv <;> simp [hex, hf, hv]
  · intro fs st storyFile hf ha
    unfold userStoryStep
    simp [hf, ha]

/-- C10 witness fixture: one file whose `summary` and nested
`user_story.as_a` both hold the literal two-character string `""`. -/
def fsQuotedEmpty : FS :=
  { dirs := [],
    files := [(["docs", "x.yaml"],
      .success (.jObj [("summary", .jStr "\"\""), ("story_id", .jStr "S-01"),
        ("user_story", .jObj [("as_a", .jStr "\"\"")])]))] }

theorem quoted_literal_treated_empty_w :
    (checkYamlField fsQuotedEmpty ["docs", "x.yaml"] "summary" "PRD"
        { result := initialResult, out := [] } =
      (logWarn ("PRD" ++ ": '" ++ "summary" ++ "' is empty in " ++ pbasename ["docs", "x.yaml"])
        { result := initialResult, out := [] }, false)) ∧
      ((userStoryStep fsQuotedEmpty ({ result := initialResult, out := [] }, 0, 0)
          ["docs", "x.yaml"]).1 =
        logWarn ("Story " ++ getStr (loadYaml fsQuotedEmpty ["docs", "x.yaml"]) "story_id" ++
          " has incomplete user story definition") { result := initialResult, out := [] }) :=
  ⟨quoted_literal_treated_empty.1 fsQuotedEmpty ["docs", "x.yaml"] "summary" "PRD"
      { result := initialResult, out := [] } (by decide) (by decide) (Or.inl (by decide)),
    quoted_literal_treated_empty.2 fsQuotedEmpty ({ result := initialResult, out := [] }, 0, 0)
      ["docs", "x.yaml"] (by decide) (by decide)⟩
